import Mathlib

/-!
Verification of the commission / accounts core of the health_backend repository.

Numbers (JavaScript `number` values used for money and rates) are modelled as
rationals; `Math.round` is modelled exactly (round half toward positive
infinity).  Mongo documents are Lean structures, collections are lists, and the
stateful service operations are explicit state-passing functions
`DB -> args -> DB x response`.  Dates are abstract `Nat` instants.
-/

/-- JavaScript `Math.round`: round to the nearest integer, halves toward `+inf`. -/
def jsRound (x : ℚ) : ℤ := ⌊x + 1/2⌋

/-- The `Math.round(x * 100) / 100` pattern used throughout the source to round
to 2 decimal places. -/
def round2 (x : ℚ) : ℚ := (jsRound (x * 100) : ℚ) / 100

namespace CommissionHelper

/-- `src/utils/helpers.ts` `CommissionHelper.calculateCommission`:
`Math.round((amount * rate / 100) * 100) / 100`. -/
def calculateCommission (amount rate : ℚ) : ℚ := round2 (amount * rate / 100)

end CommissionHelper

/-- `src/types/index.ts` `PaymentStatus` (values used by the commission and
accounts code). -/
inductive PaymentStatus
  | PAID
  | PENDING
  | PARTIAL
  deriving DecidableEq, Repr

/-- `src/types/index.ts` `CommissionType`. -/
inductive CommissionType
  | TEST_REFERRAL
  deriving DecidableEq, Repr

/-- A doctor document (fields used by the commission code: `_id`, `name`,
`email`). -/
structure Doctor where
  did : ℕ
  name : String
  email : String
  deriving DecidableEq, Repr

/-- One entry of `TestOrder.tests` as seen by `CommissionService.calculateCommission`
after `.populate('tests.testId', 'commissionRate')`: the line price together
with the populated test document (`none` when the referenced Test is missing). -/
structure OrderTest where
  price : ℚ
  testData : Option ℚ
  deriving DecidableEq, Repr

/-- A `TestOrder` document (fields used by the commission service and the
accounts reports).  `referringDoctor` is the populated
`referringDoctorId`; it is `none` both when no doctor was set and when the
reference is dangling (Mongoose populate yields null in both cases). -/
structure TestOrder where
  oid : ℕ
  orderId : String
  patientId : String
  referringDoctor : Option Doctor
  tests : List OrderTest
  totalAmount : ℚ
  commissionAmount : ℚ
  paymentMode : String
  paymentStatus : PaymentStatus
  branchId : String
  createdAt : ℕ
  deriving DecidableEq, Repr

/-- A `Commission` document, per `src/models/Commission.model.ts`. -/
structure CommissionRec where
  cid : ℕ
  doctorId : ℕ
  patientId : String
  orderId : ℕ
  commissionType : CommissionType
  amount : ℚ
  percentage : ℚ
  calculatedDate : ℕ
  paymentStatus : PaymentStatus
  paymentDate : Option ℕ
  branchId : String
  deriving DecidableEq, Repr

/-- A `PatientVisit` document (fields used by the accounts reports). -/
structure PatientVisit where
  branchId : String
  paymentMode : String
  paymentStatus : PaymentStatus
  consultationFee : ℚ
  createdAt : ℕ
  deriving DecidableEq, Repr

/-- An `Expense` document (fields used by the accounts reports). -/
structure Expense where
  branchId : String
  amount : ℚ
  category : String
  date : ℕ
  createdAt : ℕ
  deriving DecidableEq, Repr

/-- The document store: one list per collection. -/
structure DB where
  orders : List TestOrder
  commissions : List CommissionRec
  doctors : List Doctor
  visits : List PatientVisit
  expenses : List Expense
  deriving DecidableEq, Repr

/-- The shape produced by `ResponseHelper.success` / `ResponseHelper.error`
in `src/utils/helpers.ts`. -/
structure Resp (α : Type) where
  success : Bool
  statusCode : ℕ
  message : String
  data : Option α
  deriving DecidableEq, Repr

namespace ResponseHelper

def success {α : Type} (data : α) (message : String) : Resp α :=
  { success := true, statusCode := 200, message := message, data := some data }

def error {α : Type} (message : String) (statusCode : ℕ) : Resp α :=
  { success := false, statusCode := statusCode, message := message, data := none }

end ResponseHelper

namespace EmailService

/-- `EmailService.sendEmail` wraps the transport call in try/catch: it returns
`true` on delivery and `false` (after logging) on transport failure.  It never
raises, so callers observe only the boolean.  `transportOk` is the outcome of
the external mail transport. -/
def sendEmail (transportOk : Bool) : Bool := transportOk

/-- `EmailService.sendCommissionNotification` delegates to `sendEmail`. -/
def sendCommissionNotification (transportOk : Bool) : Bool := sendEmail transportOk

end EmailService

/-- Accumulator of the per-test loop in `CommissionService.calculateCommission`
(`totalCommission`, `totalAmount`, `commissionRateSum`, `validTestsCount`). -/
structure CalcAcc where
  totalCommission : ℚ
  totalAmount : ℚ
  commissionRateSum : ℚ
  validTestsCount : ℕ
  deriving DecidableEq, Repr

/-- One iteration of the loop: a line contributes iff its populated test exists
and its `commissionRate` lies in `[0, 100]`. -/
def calcStep (acc : CalcAcc) (test : OrderTest) : CalcAcc :=
  match test.testData with
  | some rate =>
      if 0 ≤ rate ∧ rate ≤ 100 then
        { totalCommission :=
            acc.totalCommission + CommissionHelper.calculateCommission test.price rate
          totalAmount := acc.totalAmount + test.price
          commissionRateSum := acc.commissionRateSum + rate
          validTestsCount := acc.validTestsCount + 1 }
      else acc
  | none => acc

/-- The whole loop (`for (const test of order.tests) ...`). -/
def calcTests (tests : List OrderTest) : CalcAcc :=
  tests.foldl calcStep ⟨0, 0, 0, 0⟩

namespace CommissionService

/-- Payload of the success response of `calculateCommission`:
the saved commission plus the order/doctor echo
(`commissionAmount` is the un-rounded loop total echoed in the response). -/
structure CalcSuccess where
  commission : CommissionRec
  orderId : String
  orderTotalAmount : ℚ
  commissionAmount : ℚ
  doctorName : String
  doctorEmail : String
  deriving DecidableEq, Repr

/-- `CommissionService.calculateCommission(orderId)`.  `now` is the clock value
used for `calculatedDate`, `newId` the `_id` Mongo assigns to the inserted
document. -/
def calculateCommission (db : DB) (orderId : ℕ) (now : ℕ) (newId : ℕ) :
    DB × Resp CalcSuccess :=
  match db.orders.find? (fun o => o.oid == orderId) with
  | none => (db, ResponseHelper.error "Order not found" 404)
  | some order =>
    match order.referringDoctor with
    | none =>
        (db, ResponseHelper.error "No referring doctor found for commission calculation" 400)
    | some doctor =>
      let acc := calcTests order.tests
      let averagePercentage : ℚ :=
        if acc.validTestsCount > 0 then acc.commissionRateSum / acc.validTestsCount else 0
      match db.commissions.find? (fun c => c.orderId == order.oid) with
      | some _ =>
          (db, ResponseHelper.error "Commission already calculated for this order" 400)
      | none =>
        let commission : CommissionRec :=
          { cid := newId
            doctorId := doctor.did
            patientId := order.patientId
            orderId := order.oid
            commissionType := CommissionType.TEST_REFERRAL
            amount := round2 acc.totalCommission
            percentage := round2 averagePercentage
            calculatedDate := now
            paymentStatus := PaymentStatus.PENDING
            paymentDate := none
            branchId := order.branchId }
        ({ db with commissions := db.commissions ++ [commission] },
         ResponseHelper.success
           ⟨commission, order.orderId, order.totalAmount, acc.totalCommission,
            doctor.name, doctor.email⟩
           "Commission calculated successfully")

/-- The mutation `payCommission` / `bulkPayCommissions` perform on a record:
`paymentStatus = PAID; paymentDate = new Date()`. -/
def paidVersion (c : CommissionRec) (now : ℕ) : CommissionRec :=
  { c with paymentStatus := PaymentStatus.PAID, paymentDate := some now }

/-- `CommissionService.payCommission(commissionId, paidBy)`.  `emailOk` is the
outcome of the external mail transport for the notification; the doctor lookup
models `.populate('doctorId', 'name email')` (a dangling reference makes
`doctor.email` throw, which the catch block turns into a 500 — after the save
already happened). -/
def payCommission (db : DB) (commissionId : ℕ) (now : ℕ) (emailOk : Bool) :
    DB × Resp CommissionRec :=
  match db.commissions.find? (fun c => c.cid == commissionId) with
  | none => (db, ResponseHelper.error "Commission not found" 404)
  | some commission =>
    if commission.paymentStatus = PaymentStatus.PAID then
      (db, ResponseHelper.error "Commission already paid" 400)
    else
      let db1 : DB :=
        { db with
          commissions :=
            db.commissions.map
              (fun x => if x.cid == commissionId then paidVersion x now else x) }
      match db.doctors.find? (fun d => d.did == commission.doctorId) with
      | none => (db1, ResponseHelper.error "Failed to process commission payment" 500)
      | some _doctor =>
        let _emailSent := EmailService.sendCommissionNotification emailOk
        (db1, ResponseHelper.success (paidVersion commission now)
                "Commission payment processed successfully")

/-- One row of the `results` array of `bulkPayCommissions`. -/
structure PayResult where
  commissionId : ℕ
  doctorName : String
  amount : ℚ
  paid : Bool
  deriving DecidableEq, Repr

/-- Payload of the success response of `bulkPayCommissions`. -/
structure BulkData where
  paidCommissions : ℕ
  totalAmount : ℚ
  results : List PayResult
  deriving DecidableEq, Repr

/-- The filter used by `bulkPayCommissions`:
`_id` in the given list and `paymentStatus` PENDING. -/
def pendingSel (commissionIds : List ℕ) (c : CommissionRec) : Bool :=
  commissionIds.contains c.cid && (c.paymentStatus == PaymentStatus.PENDING)

/-- The `for (const commission of commissions)` loop of `bulkPayCommissions`:
save each as PAID, then notify.  The doctor comes from the populate performed by
the initial query, hence the fixed `doctors` list.  `none` in the second
component is the exception path (dangling doctor reference) — records saved so
far stay PAID. -/
def bulkLoop (doctors : List Doctor) (comms : List CommissionRec)
    (pending : List CommissionRec) (now : ℕ) (emailOk : ℕ → Bool)
    (acc : List PayResult) : List CommissionRec × Option (List PayResult) :=
  match pending with
  | [] => (comms, some acc)
  | c :: rest =>
    let comms1 := comms.map (fun x => if x.cid == c.cid then paidVersion x now else x)
    match doctors.find? (fun d => d.did == c.doctorId) with
    | none => (comms1, none)
    | some doctor =>
      let _emailSent := EmailService.sendCommissionNotification (emailOk c.cid)
      bulkLoop doctors comms1 rest now emailOk
        (acc ++ [⟨c.cid, doctor.name, c.amount, true⟩])

/-- `CommissionService.bulkPayCommissions(commissionIds, paidBy)`. -/
def bulkPayCommissions (db : DB) (commissionIds : List ℕ) (now : ℕ)
    (emailOk : ℕ → Bool) : DB × Resp BulkData :=
  let commissions := db.commissions.filter (pendingSel commissionIds)
  if commissions.isEmpty then
    (db, ResponseHelper.error "No pending commissions found" 404)
  else
    match bulkLoop db.doctors db.commissions commissions now emailOk [] with
    | (comms1, none) =>
        ({ db with commissions := comms1 },
         ResponseHelper.error "Failed to process bulk commission payments" 500)
    | (comms1, some results) =>
        let totalAmount := (results.map PayResult.amount).sum
        ({ db with commissions := comms1 },
         ResponseHelper.success ⟨results.length, totalAmount, results⟩
           "commission payments processed successfully")

end CommissionService

/-- The caller identity attached to the request by the `authenticate`
middleware (`req.user`). -/
structure UserCtx where
  userId : String
  role : String
  branchId : Option String
  deriving DecidableEq, Repr

namespace rbac

/-- Outcome of a middleware: short-circuit with a status code, or pass the
request on (possibly with the query `branchId` rewritten). -/
inductive MiddlewareResult
  | denied (statusCode : ℕ) (message : String)
  | next (queryBranchId : Option String)
  deriving DecidableEq, Repr

/-- `authorize(allowedRoles)` from `rbac.middleware`: 401 without a user, 403
when the caller's role is not allowed, otherwise pass through. -/
def authorize (allowedRoles : List String) (user : Option UserCtx)
    (queryBranchId : Option String) : MiddlewareResult :=
  match user with
  | none => .denied 401 "Authentication required"
  | some u =>
    if allowedRoles.contains u.role then .next queryBranchId
    else .denied 403 "Insufficient permissions"

/-- `checkBranchAccess` from `rbac.middleware`: administrators pass; any other
caller supplying a `branchId` different from their own receives a 403, and a
missing `branchId` is filled in with the caller's own branch. -/
def checkBranchAccess (user : Option UserCtx) (queryBranchId : Option String) :
    MiddlewareResult :=
  match user with
  | none => .denied 401 "Authentication required"
  | some u =>
    if u.role == "ADMIN" then .next queryBranchId
    else
      match queryBranchId with
      | some b =>
          if some b ≠ u.branchId then .denied 403 "Branch access denied"
          else .next queryBranchId
      | none => .next u.branchId

end rbac

/-- The middleware chain `accounts.routes.ts` mounts on GET /daily-collection
(and the other report routes): authentication, a role check, and Joi
validation.  `checkBranchAccess` is not part of this router. -/
def accountsDailyCollectionMiddlewares : List String :=
  ["authenticate", "authorize", "validate"]

/-- The router-level middleware of `opd.routes.ts` (applied to every OPD
route), which does include `checkBranchAccess`. -/
def opdRouterMiddlewares : List String :=
  ["authenticate", "checkBranchAccess", "logAccess"]

/-- The roles `accounts.routes.ts` allows on GET /daily-collection. -/
def dailyCollectionAllowedRoles : List String :=
  ["ADMIN", "BRANCH_MANAGER", "OPD_STAFF"]

/-- Insert-or-accumulate into a grouped-sum association list, preserving
first-seen key order (models a `$group` stage producing sum and count). -/
def addToGroups {κ : Type} [DecidableEq κ] (groups : List (κ × ℚ × ℕ))
    (key : κ) (v : ℚ) : List (κ × ℚ × ℕ) :=
  match groups with
  | [] => [(key, v, 1)]
  | (k, s, n) :: rest =>
      if k = key then (k, s + v, n + 1) :: rest
      else (k, s, n) :: addToGroups rest key v

/-- A `$group` aggregation: sum of `val` and document count per `key`. -/
def groupSum {α κ : Type} [DecidableEq κ] (key : α → κ) (val : α → ℚ)
    (l : List α) : List (κ × ℚ × ℕ) :=
  l.foldl (fun gs a => addToGroups gs (key a) (val a)) []

namespace AccountsController

/-- One merged row of the `collections` array of the daily-collection report
(one per payment mode). -/
structure ModeRow where
  paymentMode : String
  consultationAmount : ℚ
  testAmount : ℚ
  totalAmount : ℚ
  consultationCount : ℕ
  testCount : ℕ
  totalCount : ℕ
  deriving DecidableEq, Repr

/-- Fold one consultation `$group` row into the payment-mode map
(`existing.consultationAmount = item.totalAmount; ... totalAmount += ...`),
creating the default row on first sight of the mode. -/
def applyConsultation (rows : List ModeRow) (g : String × ℚ × ℕ) : List ModeRow :=
  match rows with
  | [] => [{ paymentMode := g.1, consultationAmount := g.2.1, testAmount := 0,
             totalAmount := g.2.1, consultationCount := g.2.2, testCount := 0,
             totalCount := g.2.2 }]
  | r :: rest =>
      if r.paymentMode = g.1 then
        { r with consultationAmount := g.2.1, consultationCount := g.2.2,
                 totalAmount := r.totalAmount + g.2.1,
                 totalCount := r.totalCount + g.2.2 } :: rest
      else r :: applyConsultation rest g

/-- Fold one test-order `$group` row into the payment-mode map. -/
def applyTest (rows : List ModeRow) (g : String × ℚ × ℕ) : List ModeRow :=
  match rows with
  | [] => [{ paymentMode := g.1, consultationAmount := 0, testAmount := g.2.1,
             totalAmount := g.2.1, consultationCount := 0, testCount := g.2.2,
             totalCount := g.2.2 }]
  | r :: rest =>
      if r.paymentMode = g.1 then
        { r with testAmount := g.2.1, testCount := g.2.2,
                 totalAmount := r.totalAmount + g.2.1,
                 totalCount := r.totalCount + g.2.2 } :: rest
      else r :: applyTest rest g

/-- The `summary` object of the daily-collection report. -/
structure DailySummary where
  totalCollection : ℚ
  totalExpenses : ℚ
  netCollection : ℚ
  transactionCount : ℕ
  deriving DecidableEq, Repr

/-- One branch entry of the admin branch-wise daily-collection report
(`branchId`, merged `collections`, and the summary fields). -/
structure BranchDaily where
  branchId : String
  collections : List ModeRow
  totalCollection : ℚ
  totalExpenses : ℚ
  netCollection : ℚ
  transactionCount : ℕ
  deriving DecidableEq, Repr

/-- Branch-wise processing of one consultation `$group` row
(key = branch and payment mode), creating the branch entry on first sight. -/
def branchApplyConsultation (bs : List BranchDaily) (g : (String × String) × ℚ × ℕ) :
    List BranchDaily :=
  match bs with
  | [] => [{ branchId := g.1.1, collections := applyConsultation [] (g.1.2, g.2),
             totalCollection := g.2.1, totalExpenses := 0, netCollection := 0,
             transactionCount := g.2.2 }]
  | b :: rest =>
      if b.branchId = g.1.1 then
        { b with collections := applyConsultation b.collections (g.1.2, g.2),
                 totalCollection := b.totalCollection + g.2.1,
                 transactionCount := b.transactionCount + g.2.2 } :: rest
      else b :: branchApplyConsultation rest g

/-- Branch-wise processing of one test-order `$group` row. -/
def branchApplyTest (bs : List BranchDaily) (g : (String × String) × ℚ × ℕ) :
    List BranchDaily :=
  match bs with
  | [] => [{ branchId := g.1.1, collections := applyTest [] (g.1.2, g.2),
             totalCollection := g.2.1, totalExpenses := 0, netCollection := 0,
             transactionCount := g.2.2 }]
  | b :: rest =>
      if b.branchId = g.1.1 then
        { b with collections := applyTest b.collections (g.1.2, g.2),
                 totalCollection := b.totalCollection + g.2.1,
                 transactionCount := b.transactionCount + g.2.2 } :: rest
      else b :: branchApplyTest rest g

/-- Branch-wise processing of one expense `$group` row: only branches already
present receive their `totalExpenses` and `netCollection` (source lines
186-193 drop expenses of branches without collections). -/
def branchApplyExpense (bs : List BranchDaily) (g : String × ℚ × ℕ) :
    List BranchDaily :=
  match bs with
  | [] => []
  | b :: rest =>
      if b.branchId = g.1 then
        { b with totalExpenses := g.2.1,
                 netCollection := b.totalCollection - g.2.1 } :: rest
      else b :: branchApplyExpense rest g

/-- The data part of the daily-collection response: branch-wise (admin without
a branch filter) or the single flat shape. -/
inductive DailyCollectionData
  | branchWise (branches : List BranchDaily) (grandTotal : DailySummary)
  | single (branchId : String) (collections : List ModeRow) (summary : DailySummary)
  deriving DecidableEq, Repr

/-- A controller response sent directly through `res.json` /
`res.status(code).json`. -/
inductive CtrlResp (α : Type)
  | ok (data : α)
  | failed (statusCode : ℕ) (message : String)
  deriving DecidableEq, Repr

/-- The branch scope resolution of `AccountsController.getDailyCollection`
(part_011 lines 41-49): non-administrators are silently pinned to their own
branch — the requested `branchId` is ignored, no error is raised. -/
def dailyCollectionBranchFilter (user : UserCtx) (branchId : Option String) :
    Option String :=
  if ¬ (user.role = "ADMIN") then user.branchId
  else branchId

/-- `AccountsController.getDailyCollection`.  The date window resolution
(explicit date, range, or today) is abstracted into the closed interval
`[dateLo, dateHi]` on `createdAt`; everything else follows part_011 lines
41-286.  A `none` branch filter imposes no branch constraint. -/
def getDailyCollection (db : DB) (user : UserCtx) (branchId : Option String)
    (dateLo dateHi : ℕ) : CtrlResp DailyCollectionData :=
  let isAdmin := user.role = "ADMIN"
  let branchFilter := dailyCollectionBranchFilter user branchId
  let inWindow := fun (t : ℕ) => decide (dateLo ≤ t) && decide (t ≤ dateHi)
  let branchOk := fun (b : String) =>
    match branchFilter with
    | some fb => b == fb
    | none => true
  let paidish := fun (s : PaymentStatus) =>
    (s == PaymentStatus.PAID) || (s == PaymentStatus.PARTIAL)
  let visits := db.visits.filter
    (fun v => inWindow v.createdAt && branchOk v.branchId && paidish v.paymentStatus)
  let orders := db.orders.filter
    (fun o => inWindow o.createdAt && branchOk o.branchId && paidish o.paymentStatus)
  let expenses := db.expenses.filter
    (fun e => inWindow e.createdAt && branchOk e.branchId)
  if isAdmin ∧ branchId = none then
    let consultationCollection :=
      groupSum (fun v => (v.branchId, v.paymentMode)) PatientVisit.consultationFee visits
    let testCollection :=
      groupSum (fun o => (o.branchId, o.paymentMode)) TestOrder.totalAmount orders
    let expensesTotal := groupSum Expense.branchId Expense.amount expenses
    let afterCons := consultationCollection.foldl branchApplyConsultation []
    let afterTest := testCollection.foldl branchApplyTest afterCons
    let branchWiseData := expensesTotal.foldl branchApplyExpense afterTest
    let totalCollection := (branchWiseData.map BranchDaily.totalCollection).sum
    let totalExpenses := (branchWiseData.map BranchDaily.totalExpenses).sum
    let transactionCount := (branchWiseData.map BranchDaily.transactionCount).sum
    .ok (.branchWise branchWiseData
      { totalCollection := totalCollection, totalExpenses := totalExpenses,
        netCollection := totalCollection - totalExpenses,
        transactionCount := transactionCount })
  else
    let consultationCollection :=
      groupSum PatientVisit.paymentMode PatientVisit.consultationFee visits
    let testCollection := groupSum TestOrder.paymentMode TestOrder.totalAmount orders
    let expensesTotal := groupSum (fun (_ : Expense) => ()) Expense.amount expenses
    let afterCons := consultationCollection.foldl applyConsultation []
    let collections := testCollection.foldl applyTest afterCons
    let totalCollection := (collections.map ModeRow.totalAmount).sum
    let totalExpenses :=
      match expensesTotal with
      | [] => 0
      | g :: _ => g.2.1
    .ok (.single (branchFilter.getD "ALL") collections
      { totalCollection := totalCollection, totalExpenses := totalExpenses,
        netCollection := totalCollection - totalExpenses,
        transactionCount := (collections.map ModeRow.totalCount).sum })

/-- GET /accounts/daily-collection end to end: the `authorize` role middleware
(the only access-control middleware this route mounts besides `authenticate`,
which is modelled by `user`), then the controller. -/
def dailyCollectionRequest (db : DB) (user : Option UserCtx)
    (branchId : Option String) (dateLo dateHi : ℕ) : CtrlResp DailyCollectionData :=
  match rbac.authorize dailyCollectionAllowedRoles user branchId with
  | .denied code msg => .failed code msg
  | .next q =>
    match user with
    | some u => getDailyCollection db u q dateLo dateHi
    | none => .failed 401 "Authentication required"

/-- `Number.prototype.toFixed(2)` as used on the profit margin: the value is
rounded to 2 decimal places (the JavaScript result is the corresponding digit
string; we model its numeric value). -/
def toFixed2 (x : ℚ) : ℚ := round2 x

/-- Insertion sort descending by the group total (`$sort: -1`). -/
def insertDescBy {κ : Type} (x : κ × ℚ × ℕ) : List (κ × ℚ × ℕ) → List (κ × ℚ × ℕ)
  | [] => [x]
  | y :: rest => if y.2.1 ≤ x.2.1 then x :: y :: rest else y :: insertDescBy x rest

def sortDescBy {κ : Type} (l : List (κ × ℚ × ℕ)) : List (κ × ℚ × ℕ) :=
  l.foldr insertDescBy []

/-- The single-branch financial-statement data (part_011 lines 1922-1950). -/
structure FinData where
  branchId : String
  consultationsAmount : ℚ
  consultationsCount : ℕ
  testsAmount : ℚ
  testsCount : ℕ
  revenueTotal : ℚ
  expensesByCategory : List (String × ℚ × ℕ)
  expensesTotal : ℚ
  commissionsPaid : ℚ
  commissionsCount : ℕ
  netIncome : ℚ
  profitMargin : ℚ
  deriving DecidableEq, Repr

/-- The single-branch / non-admin path of
`AccountsController.getFinancialStatement` (part_011 lines 1847-1950).
`branchFilter` is the resolved scope (same resolution as the other reports);
the month window is the closed interval `[dateLo, dateHi]`.  Revenue counts
only `paymentStatus = PAID` documents; a `_id: null` group over an empty match
yields 0 via the `|| 0` fallbacks, modelled by the sums over the filtered
lists. -/
def financialStatementSingle (db : DB) (branchFilter : Option String)
    (dateLo dateHi : ℕ) : FinData :=
  let inWindow := fun (t : ℕ) => decide (dateLo ≤ t) && decide (t ≤ dateHi)
  let branchOk := fun (b : String) =>
    match branchFilter with
    | some fb => b == fb
    | none => true
  let visits := db.visits.filter
    (fun v => inWindow v.createdAt && branchOk v.branchId &&
      (v.paymentStatus == PaymentStatus.PAID))
  let orders := db.orders.filter
    (fun o => inWindow o.createdAt && branchOk o.branchId &&
      (o.paymentStatus == PaymentStatus.PAID))
  let comms := db.commissions.filter
    (fun c => inWindow c.calculatedDate && branchOk c.branchId &&
      (c.paymentStatus == PaymentStatus.PAID))
  let exps := db.expenses.filter (fun e => inWindow e.date && branchOk e.branchId)
  let expensesByCategory := sortDescBy (groupSum Expense.category Expense.amount exps)
  let totalExpenses := (expensesByCategory.map (fun g => g.2.1)).sum
  let consultationRevenue := (visits.map PatientVisit.consultationFee).sum
  let testRevenue := (orders.map TestOrder.totalAmount).sum
  let totalRevenue := consultationRevenue + testRevenue
  let totalCommissions := (comms.map CommissionRec.amount).sum
  let netIncome := totalRevenue - totalExpenses - totalCommissions
  { branchId := branchFilter.getD "ALL"
    consultationsAmount := consultationRevenue
    consultationsCount := visits.length
    testsAmount := testRevenue
    testsCount := orders.length
    revenueTotal := totalRevenue
    expensesByCategory := expensesByCategory
    expensesTotal := totalExpenses
    commissionsPaid := totalCommissions
    commissionsCount := comms.length
    netIncome := netIncome
    profitMargin :=
      if 0 < totalRevenue then toFixed2 (netIncome / totalRevenue * 100) else 0 }

/-- The per-branch finalization of the admin branch-wise financial statement
(part_011 lines 1801-1803): net income and profit margin from the branch
totals. -/
def branchFinalize (revenueTotal expensesTotal commissionsPaid : ℚ) : ℚ × ℚ :=
  let netIncome := revenueTotal - expensesTotal - commissionsPaid
  (netIncome,
   if 0 < revenueTotal then toFixed2 (netIncome / revenueTotal * 100) else 0)

end AccountsController

namespace OPDController

/-- A `Test` catalog document (fields used by `createTestOrder`). -/
structure TestDetail where
  tid : ℕ
  testName : String
  price : ℚ
  commissionRate : ℚ
  deriving DecidableEq, Repr

/-- One entry of the `tests` request array of `createTestOrder`. -/
structure OrderTestRequest where
  testId : ℕ
  testName : Option String
  price : Option ℚ
  deriving DecidableEq, Repr

/-- JavaScript `orderTest.price || testDetail.price`: both `undefined` and `0`
are falsy, so a missing or zero request price falls back to the catalog
price. -/
def jsOrPrice (p : Option ℚ) (fallback : ℚ) : ℚ :=
  match p with
  | some v => if v = 0 then fallback else v
  | none => fallback

/-- The price stored on the order line
(`price: orderTest.price || testDetail?.price`).  A missing detail together
with a missing request price is JavaScript `undefined`; `0` stands in for it
and the theorems only use inputs where the detail is present. -/
def storedLinePrice (r : OrderTestRequest) (d : Option TestDetail) : ℚ :=
  jsOrPrice r.price
    (match d with
     | some dd => dd.price
     | none => 0)

/-- The totals fold of `OPDController.createTestOrder` (lines 314-332): each
line whose catalog lookup succeeded contributes its stored price to
`totalAmount` and `CommissionHelper.calculateCommission(price, rate)` to
`commissionAmount`; no commission-rate range check is applied. -/
def createTestOrderTotals (tests : List (OrderTestRequest × Option TestDetail)) :
    ℚ × ℚ :=
  tests.foldl
    (fun acc rd =>
      match rd.2 with
      | some d =>
          (acc.1 + storedLinePrice rd.1 rd.2,
           acc.2 + CommissionHelper.calculateCommission (storedLinePrice rd.1 rd.2)
                     d.commissionRate)
      | none => acc)
    (0, 0)

/-- The line item `CommissionService.calculateCommission` later sees for a
saved line: the stored price together with the populated catalog commission
rate (assuming the Test document still exists at populate time). -/
def serviceLineOf (r : OrderTestRequest) (d : TestDetail) : OrderTest :=
  { price := storedLinePrice r (some d), testData := some d.commissionRate }

end OPDController

/-- One `Schema.index(keys, options)` declaration of a Mongoose schema; an
index without `unique: true` is a plain, non-unique index. -/
structure IndexSpec where
  keys : List String
  unique : Bool
  deriving DecidableEq, Repr

/-- The five index declarations of `Commission.model.ts` (lines 61-65); none
of them passes a `unique` option. -/
def commissionIndexes : List IndexSpec :=
  [{ keys := ["doctorId"], unique := false },
   { keys := ["orderId"], unique := false },
   { keys := ["branchId"], unique := false },
   { keys := ["paymentStatus"], unique := false },
   { keys := ["calculatedDate"], unique := false }]

/-- The string stored for a `PaymentStatus` enum value. -/
def PaymentStatus.asString : PaymentStatus → String
  | .PAID => "PAID"
  | .PENDING => "PENDING"
  | .PARTIAL => "PARTIAL"

/-- The value a Commission document stores under an indexed path. -/
def indexKeyVal (c : CommissionRec) (k : String) : Option (ℕ ⊕ String) :=
  if k = "doctorId" then some (Sum.inl c.doctorId)
  else if k = "orderId" then some (Sum.inl c.orderId)
  else if k = "branchId" then some (Sum.inr c.branchId)
  else if k = "paymentStatus" then some (Sum.inr c.paymentStatus.asString)
  else if k = "calculatedDate" then some (Sum.inl c.calculatedDate)
  else none

/-- The schema-level field validators of `CommissionSchema`: `amount: min 0`,
`percentage: min 0, max 100` (required references and enum validity are
carried by the field types of `CommissionRec`). -/
def commissionFieldOk (c : CommissionRec) : Bool :=
  decide (0 ≤ c.amount) && decide (0 ≤ c.percentage) && decide (c.percentage ≤ 100)

/-- What the storage layer accepts for the Commission collection: every
document passes schema validation and every index declared `unique` sees
pairwise-distinct key tuples. -/
def commissionStorageAdmits (docs : List CommissionRec) : Prop :=
  (∀ c ∈ docs, commissionFieldOk c = true) ∧
  ∀ idx ∈ commissionIndexes, idx.unique = true →
    (docs.map (fun c => idx.keys.map (indexKeyVal c))).Nodup

instance (docs : List CommissionRec) : Decidable (commissionStorageAdmits docs) := by
  unfold commissionStorageAdmits
  infer_instance

/-- Multiples of `1/100` (amounts already expressed in whole cents). -/
def IsCent (x : ℚ) : Prop := ∃ k : ℤ, x = (k : ℚ) / 100

/-- The qualifying lines of an order (populated test present, rate in
`[0, 100]`), paired with their rates — exactly the lines `calcStep` counts. -/
def qualPairs (tests : List OrderTest) : List (ℚ × ℚ) :=
  tests.filterMap fun t =>
    match t.testData with
    | some rate => if 0 ≤ rate ∧ rate ≤ 100 then some (t.price, rate) else none
    | none => none

/-- Every PAID record of the pre-state still has a PAID record with the same
`_id` in the post-state (no operation reverses a payment). -/
def PaidStaysPaid (pre post : List CommissionRec) : Prop :=
  ∀ x ∈ pre, x.paymentStatus = PaymentStatus.PAID →
    ∃ y ∈ post, y.cid = x.cid ∧ y.paymentStatus = PaymentStatus.PAID

namespace CommissionService

/-- The doctor name shown in a bulk-pay result row (empty when the populate
found nothing — that path aborts the loop instead). -/
def doctorNameOf (doctors : List Doctor) (c : CommissionRec) : String :=
  match doctors.find? (fun d => d.did == c.doctorId) with
  | some d => d.name
  | none => ""

/-- The result row `bulkPayCommissions` pushes for one paid commission. -/
def mkPayResult (doctors : List Doctor) (c : CommissionRec) : PayResult :=
  ⟨c.cid, doctorNameOf doctors c, c.amount, true⟩

end CommissionService

/-- The (stored price, catalog rate) pairs of the creation-side fold: one per
line whose catalog lookup succeeded (no rate filter). -/
def createdPairs (pairs : List (OPDController.OrderTestRequest × Option OPDController.TestDetail)) :
    List (ℚ × ℚ) :=
  pairs.filterMap fun rd =>
    match rd.2 with
    | some d => some (OPDController.storedLinePrice rd.1 rd.2, d.commissionRate)
    | none => none

/-- The Commission document `calculateCommission` inserts on success (source
lines 52-62). -/
def newCommission (order : TestOrder) (doctor : Doctor) (now newId : ℕ) :
    CommissionRec :=
  { cid := newId
    doctorId := doctor.did
    patientId := order.patientId
    orderId := order.oid
    commissionType := CommissionType.TEST_REFERRAL
    amount := round2 (calcTests order.tests).totalCommission
    percentage := round2 (if (calcTests order.tests).validTestsCount > 0 then
      (calcTests order.tests).commissionRateSum / (calcTests order.tests).validTestsCount
      else 0)
    calculatedDate := now
    paymentStatus := PaymentStatus.PENDING
    paymentDate := none
    branchId := order.branchId }

/-! Concrete fixtures used by witnesses and counterexamples. -/

/-- A sample doctor. -/
def drRoy : Doctor := ⟨5, "Roy", "roy@example.com"⟩

/-- A sample order with a referring doctor and two in-range line items. -/
def wOrder : TestOrder :=
  { oid := 7, orderId := "BR001-ORD007", patientId := "P1",
    referringDoctor := some drRoy,
    tests := [⟨100, some 10⟩, ⟨200, some 20⟩],
    totalAmount := 300, commissionAmount := 50, paymentMode := "CASH",
    paymentStatus := PaymentStatus.PENDING, branchId := "BR001", createdAt := 5 }

/-- A store holding `wOrder` and no commissions. -/
def wDb : DB := ⟨[wOrder], [], [drRoy], [], []⟩

/-- A PENDING commission for `wOrder`. -/
def pendComm : CommissionRec :=
  ⟨1, 5, "P1", 7, CommissionType.TEST_REFERRAL, 10, 10, 0,
   PaymentStatus.PENDING, none, "BR001"⟩

/-- An already PAID commission. -/
def paidComm : CommissionRec :=
  ⟨2, 5, "P2", 8, CommissionType.TEST_REFERRAL, 20, 10, 0,
   PaymentStatus.PAID, some 3, "BR001"⟩

/-- A second PENDING commission. -/
def pendComm2 : CommissionRec :=
  ⟨3, 5, "P3", 9, CommissionType.TEST_REFERRAL, 30, 10, 0,
   PaymentStatus.PENDING, none, "BR001"⟩

/-- Store for the pay / bulk-pay witnesses: A (PENDING), B (PAID), C (PENDING). -/
def payDb : DB := ⟨[], [pendComm, paidComm, pendComm2], [drRoy], [], []⟩

/-- Two distinct Commission documents referencing the same order. -/
def dupCommissionA : CommissionRec :=
  ⟨1, 5, "P1", 7, CommissionType.TEST_REFERRAL, 10, 10, 0,
   PaymentStatus.PENDING, none, "BR001"⟩

/-- A duplicate of `dupCommissionA` up to `_id`. -/
def dupCommissionB : CommissionRec :=
  ⟨2, 5, "P1", 7, CommissionType.TEST_REFERRAL, 10, 10, 0,
   PaymentStatus.PENDING, none, "BR001"⟩

/-- A non-administrator caller pinned to branch BR001. -/
def opdUser : UserCtx := ⟨"u1", "OPD_STAFF", some "BR001"⟩

/-- A paid visit in the caller's branch. -/
def visitBR1 : PatientVisit := ⟨"BR001", "CASH", PaymentStatus.PAID, 500, 10⟩

/-- A paid visit in another branch. -/
def visitBR2 : PatientVisit := ⟨"BR002", "CASH", PaymentStatus.PAID, 300, 10⟩

/-- Store with one paid visit in each of two branches. -/
def scopeDb : DB := ⟨[], [], [], [visitBR1, visitBR2], []⟩

/-- Store producing revenue 3 and expenses 2 in the statement window. -/
def marginDb : DB :=
  ⟨[], [], [], [⟨"BR001", "CASH", PaymentStatus.PAID, 3, 10⟩],
   [⟨"BR001", 2, "misc", 10, 10⟩]⟩

/-- The empty store: zero revenue and zero expenses. -/
def emptyDb : DB := ⟨[], [], [], [], []⟩

/-- Two order lines for the order-creation/service agreement witness:
rates 10 and 20, both in range. -/
def w10Lines : List (OPDController.OrderTestRequest × OPDController.TestDetail) :=
  [(⟨1, none, some 100⟩, ⟨1, "T1", 100, 10⟩),
   (⟨2, none, none⟩, ⟨2, "T2", 200, 20⟩)]

/-- A single order line whose rate 150 lies outside `[0, 100]`. -/
def badRateLine : OPDController.OrderTestRequest × OPDController.TestDetail :=
  (⟨1, none, some 100⟩, ⟨1, "T1", 100, 150⟩)

/-- The order `createTestOrder` would save for `w10Lines` (line items carry the
stored prices; the service later re-populates the rates). -/
def w10Order : TestOrder :=
  { oid := 11, orderId := "BR001-ORD011", patientId := "P1",
    referringDoctor := some drRoy,
    tests := w10Lines.map fun p => OPDController.serviceLineOf p.1 p.2,
    totalAmount := 300,
    commissionAmount := (OPDController.createTestOrderTotals
      (w10Lines.map fun p => (p.1, some p.2))).2,
    paymentMode := "CASH", paymentStatus := PaymentStatus.PENDING,
    branchId := "BR001", createdAt := 5 }

/-- Store holding `w10Order` and no commissions. -/
def w10Db : DB := ⟨[w10Order], [], [drRoy], [], []⟩

section ArithmeticLemmas

lemma jsRound_intCast (k : ℤ) : jsRound (k : ℚ) = k := by
  unfold jsRound
  rw [Int.floor_int_add]
  norm_num

lemma isCent_zero : IsCent 0 := ⟨0, by norm_num⟩

lemma isCent_add {x y : ℚ} (hx : IsCent x) (hy : IsCent y) : IsCent (x + y) := by
  obtain ⟨k, rfl⟩ := hx
  obtain ⟨m, rfl⟩ := hy
  exact ⟨k + m, by push_cast; ring⟩

lemma isCent_round2 (x : ℚ) : IsCent (round2 x) := ⟨jsRound (x * 100), rfl⟩

lemma isCent_calculateCommission (amount rate : ℚ) :
    IsCent (CommissionHelper.calculateCommission amount rate) :=
  isCent_round2 _

lemma round2_of_isCent {x : ℚ} (h : IsCent x) : round2 x = x := by
  obtain ⟨k, rfl⟩ := h
  unfold round2
  rw [div_mul_cancel₀ _ (by norm_num : (100 : ℚ) ≠ 0), jsRound_intCast]

lemma isCent_sum {l : List ℚ} (h : ∀ x ∈ l, IsCent x) : IsCent l.sum := by
  induction l with
  | nil => simpa using isCent_zero
  | cons a t ih =>
      rw [List.sum_cons]
      exact isCent_add (h a (by simp)) (ih fun x hx => h x (List.mem_cons_of_mem _ hx))

end ArithmeticLemmas

section ServiceLemmas

lemma qualPairs_nil : qualPairs [] = [] := rfl

lemma calcTests_go (tests : List OrderTest) : ∀ acc : CalcAcc,
    tests.foldl calcStep acc =
      ⟨acc.totalCommission +
         ((qualPairs tests).map fun pr => CommissionHelper.calculateCommission pr.1 pr.2).sum,
       acc.totalAmount + ((qualPairs tests).map Prod.fst).sum,
       acc.commissionRateSum + ((qualPairs tests).map Prod.snd).sum,
       acc.validTestsCount + (qualPairs tests).length⟩ := by
  induction tests with
  | nil => intro acc; simp [qualPairs]
  | cons t rest ih =>
      intro acc
      rw [List.foldl_cons, ih]
      cases h : t.testData with
      | none =>
          simp [qualPairs, List.filterMap_cons, h, calcStep]
      | some rate =>
          by_cases hr : 0 ≤ rate ∧ rate ≤ 100
          · simp [qualPairs, List.filterMap_cons, h, hr, calcStep, add_assoc]
            omega
          · simp [qualPairs, List.filterMap_cons, h, hr, calcStep]

lemma calcTests_eq (tests : List OrderTest) :
    calcTests tests =
      ⟨((qualPairs tests).map fun pr => CommissionHelper.calculateCommission pr.1 pr.2).sum,
       ((qualPairs tests).map Prod.fst).sum,
       ((qualPairs tests).map Prod.snd).sum,
       (qualPairs tests).length⟩ := by
  have h := calcTests_go tests ⟨0, 0, 0, 0⟩
  simpa [calcTests] using h

lemma isCent_totalCommission (tests : List OrderTest) :
    IsCent (calcTests tests).totalCommission := by
  rw [calcTests_eq]
  exact isCent_sum (by
    intro x hx
    obtain ⟨pr, _, rfl⟩ := List.mem_map.mp hx
    exact isCent_calculateCommission pr.1 pr.2)

lemma find?_append_of_none {α : Type} (p : α → Bool) (l1 l2 : List α)
    (h : l1.find? p = none) : (l1 ++ l2).find? p = l2.find? p := by
  rw [List.find?_append, h, Option.none_or]

end ServiceLemmas

section PayLemmas

lemma paidVersion_cid (c : CommissionRec) (now : ℕ) :
    (CommissionService.paidVersion c now).cid = c.cid := rfl

lemma paidVersion_status (c : CommissionRec) (now : ℕ) :
    (CommissionService.paidVersion c now).paymentStatus = PaymentStatus.PAID := rfl

lemma paidVersion_idem (c : CommissionRec) (now : ℕ) :
    CommissionService.paidVersion (CommissionService.paidVersion c now) now =
      CommissionService.paidVersion c now := rfl

lemma paidStays_refl (l : List CommissionRec) : PaidStaysPaid l l :=
  fun x hx hp => ⟨x, hx, rfl, hp⟩

lemma paidStays_trans {a b c : List CommissionRec}
    (h1 : PaidStaysPaid a b) (h2 : PaidStaysPaid b c) : PaidStaysPaid a c := by
  intro x hx hp
  obtain ⟨y, hy, hcid, hyp⟩ := h1 x hx hp
  obtain ⟨z, hz, hcid2, hzp⟩ := h2 y hy hyp
  exact ⟨z, hz, hcid2.trans hcid, hzp⟩

lemma paidStays_condMap (l : List CommissionRec) (now : ℕ) (p : CommissionRec → Bool) :
    PaidStaysPaid l (l.map fun x => if p x then CommissionService.paidVersion x now else x) := by
  intro x hx hp
  refine ⟨if p x then CommissionService.paidVersion x now else x, List.mem_map_of_mem _ hx, ?_, ?_⟩
  · by_cases h : p x <;> simp [h, paidVersion_cid]
  · by_cases h : p x <;> simp [h, paidVersion_status, hp]

lemma bulkLoop_paidStays (doctors : List Doctor) (now : ℕ) (emailOk : ℕ → Bool) :
    ∀ (pending comms : List CommissionRec) (acc : List CommissionService.PayResult),
      PaidStaysPaid comms
        (CommissionService.bulkLoop doctors comms pending now emailOk acc).1 := by
  intro pending
  induction pending with
  | nil => intro comms acc; exact paidStays_refl comms
  | cons c rest ih =>
      intro comms acc
      have hstep : PaidStaysPaid comms
          (comms.map fun x =>
            if x.cid == c.cid then CommissionService.paidVersion x now else x) :=
        paidStays_condMap comms now _
      cases hd : doctors.find? (fun d => d.did == c.doctorId) with
      | none => simpa [CommissionService.bulkLoop, hd] using hstep
      | some d =>
          have := ih (comms.map fun x =>
            if x.cid == c.cid then CommissionService.paidVersion x now else x)
            (acc ++ [⟨c.cid, d.name, c.amount, true⟩])
          simpa [CommissionService.bulkLoop, hd] using paidStays_trans hstep this

lemma bulkLoop_email_irrel (doctors : List Doctor) (now : ℕ) (ok1 ok2 : ℕ → Bool) :
    ∀ (pending comms : List CommissionRec) (acc : List CommissionService.PayResult),
      CommissionService.bulkLoop doctors comms pending now ok1 acc =
        CommissionService.bulkLoop doctors comms pending now ok2 acc := by
  intro pending
  induction pending with
  | nil => intro comms acc; rfl
  | cons c rest ih =>
      intro comms acc
      cases hd : doctors.find? (fun d => d.did == c.doctorId) with
      | none => simp [CommissionService.bulkLoop, hd]
      | some d => simp [CommissionService.bulkLoop, hd, ih]

lemma bulkLoop_ok (doctors : List Doctor) (now : ℕ) (emailOk : ℕ → Bool) :
    ∀ pending : List CommissionRec,
      (∀ c ∈ pending, (doctors.find? (fun d => d.did == c.doctorId)).isSome = true) →
      ∀ (comms : List CommissionRec) (acc : List CommissionService.PayResult),
      CommissionService.bulkLoop doctors comms pending now emailOk acc =
        (pending.foldl (fun l c => l.map fun x =>
            if x.cid == c.cid then CommissionService.paidVersion x now else x) comms,
         some (acc ++ pending.map fun c => CommissionService.mkPayResult doctors c)) := by
  intro pending
  induction pending with
  | nil => intro _ comms acc; simp [CommissionService.bulkLoop]
  | cons c rest ih =>
      intro h comms acc
      have hc := h c (by simp)
      obtain ⟨d, hd⟩ := Option.isSome_iff_exists.mp hc
      have hrest : ∀ x ∈ rest, (doctors.find? (fun dd => dd.did == x.doctorId)).isSome = true :=
        fun x hx => h x (List.mem_cons_of_mem _ hx)
      have ih' := ih hrest
      simp only [CommissionService.bulkLoop, hd]
      rw [ih']
      simp [CommissionService.mkPayResult, CommissionService.doctorNameOf, hd]

lemma foldl_update_eq_map (now : ℕ) :
    ∀ (S L : List CommissionRec),
      S.foldl (fun l c => l.map fun x =>
          if x.cid == c.cid then CommissionService.paidVersion x now else x) L =
        L.map fun x =>
          if x.cid ∈ S.map CommissionRec.cid then CommissionService.paidVersion x now
          else x := by
  intro S
  induction S with
  | nil =>
      intro L
      simp
  | cons c S ih =>
      intro L
      rw [List.foldl_cons, ih, List.map_map]
      refine List.map_congr_left ?_
      intro x _
      by_cases h1 : x.cid = c.cid
      · by_cases h2 : x.cid ∈ S.map CommissionRec.cid <;>
          simp [Function.comp, h1, h2, paidVersion_cid, paidVersion_idem]
      · by_cases h2 : x.cid ∈ S.map CommissionRec.cid <;>
          simp [Function.comp, h1, h2]

lemma mem_filter_cids (P : CommissionRec → Bool) {L : List CommissionRec}
    (hnd : (L.map CommissionRec.cid).Nodup) {x : CommissionRec} (hx : x ∈ L) :
    x.cid ∈ (L.filter P).map CommissionRec.cid ↔ P x = true := by
  constructor
  · intro h
    obtain ⟨y, hy, hcid⟩ := List.mem_map.mp h
    have hyL : y ∈ L := (List.mem_filter.mp hy).1
    have hyP : P y = true := (List.mem_filter.mp hy).2
    have hxy : y = x := List.inj_on_of_nodup_map hnd hyL hx hcid
    exact hxy ▸ hyP
  · intro h
    exact List.mem_map.mpr ⟨x, List.mem_filter.mpr ⟨hx, h⟩, rfl⟩

end PayLemmas

section CalcReductionLemmas

lemma calculateCommission_notFound {db : DB} {orderId : ℕ} (now newId : ℕ)
    (h : db.orders.find? (fun o => o.oid == orderId) = none) :
    CommissionService.calculateCommission db orderId now newId =
      (db, ResponseHelper.error "Order not found" 404) := by
  simp [CommissionService.calculateCommission, h]

lemma calculateCommission_noDoctor {db : DB} {orderId : ℕ} (now newId : ℕ)
    {order : TestOrder}
    (h : db.orders.find? (fun o => o.oid == orderId) = some order)
    (hd : order.referringDoctor = none) :
    CommissionService.calculateCommission db orderId now newId =
      (db, ResponseHelper.error "No referring doctor found for commission calculation" 400) := by
  simp [CommissionService.calculateCommission, h, hd]

lemma calculateCommission_already {db : DB} {orderId : ℕ} (now newId : ℕ)
    {order : TestOrder} {doctor : Doctor} {existing : CommissionRec}
    (h : db.orders.find? (fun o => o.oid == orderId) = some order)
    (hd : order.referringDoctor = some doctor)
    (he : db.commissions.find? (fun c => c.orderId == order.oid) = some existing) :
    CommissionService.calculateCommission db orderId now newId =
      (db, ResponseHelper.error "Commission already calculated for this order" 400) := by
  simp [CommissionService.calculateCommission, h, hd, he]

lemma calculateCommission_insert {db : DB} {orderId : ℕ} (now newId : ℕ)
    {order : TestOrder} {doctor : Doctor}
    (h : db.orders.find? (fun o => o.oid == orderId) = some order)
    (hd : order.referringDoctor = some doctor)
    (hn : db.commissions.find? (fun c => c.orderId == order.oid) = none) :
    CommissionService.calculateCommission db orderId now newId =
      ({ db with commissions := db.commissions ++ [newCommission order doctor now newId] },
       ResponseHelper.success
         ⟨newCommission order doctor now newId, order.orderId, order.totalAmount,
          (calcTests order.tests).totalCommission, doctor.name, doctor.email⟩
         "Commission calculated successfully") := by
  simp [CommissionService.calculateCommission, h, hd, hn, newCommission]

end CalcReductionLemmas

/-- C5: for every amount greater or equal 0 and rate in `[0, 100]`, the commission
calculator returns `round2(amount * rate / 100)`; in particular
`commission(1000, 12.5) = 125.00`. -/
theorem claim_C5_commission_formula :
    (∀ amount rate : ℚ, 0 ≤ amount → 0 ≤ rate → rate ≤ 100 →
       CommissionHelper.calculateCommission amount rate = round2 (amount * rate / 100)) ∧
    CommissionHelper.calculateCommission 1000 (25/2) = 125 := by
  constructor
  · intro amount rate _ _ _
    rfl
  · norm_num [CommissionHelper.calculateCommission, round2, jsRound]

/-- Witness for C5 at amount 3, rate 4. -/
theorem claim_C5_witness :
    CommissionHelper.calculateCommission 3 4 = round2 (3 * 4 / 100) :=
  claim_C5_commission_formula.1 3 4 (by norm_num) (by norm_num) (by norm_num)

/-- C4: on a successful calculation, lines with a rate outside `[0, 100]` (or a
missing populated test) are excluded from both the total and the average
denominator; the stored amount is the sum of the per-line 2-decimal-rounded
commissions; the stored percentage is the 2-decimal-rounded unweighted mean of
the qualifying rates; and with zero qualifying lines the operation still
succeeds with amount 0 and percentage 0. -/
theorem claim_C4_aggregation :
    ∀ (db : DB) (orderId now newId : ℕ) (order : TestOrder) (doctor : Doctor),
      db.orders.find? (fun o => o.oid == orderId) = some order →
      order.referringDoctor = some doctor →
      db.commissions.find? (fun c => c.orderId == order.oid) = none →
      ∃ c : CommissionRec,
        (CommissionService.calculateCommission db orderId now newId).2.success = true ∧
        (CommissionService.calculateCommission db orderId now newId).1.commissions =
          db.commissions ++ [c] ∧
        c.amount = ((qualPairs order.tests).map fun pr =>
          CommissionHelper.calculateCommission pr.1 pr.2).sum ∧
        (0 < (qualPairs order.tests).length →
          c.percentage = round2 (((qualPairs order.tests).map Prod.snd).sum /
            (qualPairs order.tests).length)) ∧
        (qualPairs order.tests = [] → c.amount = 0 ∧ c.percentage = 0) := by
  intro db orderId now newId order doctor horder hdoc hnone
  refine ⟨newCommission order doctor now newId, ?_, ?_, ?_, ?_, ?_⟩
  · rw [calculateCommission_insert now newId horder hdoc hnone]
    rfl
  · rw [calculateCommission_insert now newId horder hdoc hnone]
  · show round2 (calcTests order.tests).totalCommission = _
    rw [round2_of_isCent (isCent_totalCommission order.tests), calcTests_eq]
  · intro hpos
    show round2 _ = _
    rw [calcTests_eq]
    simp only [gt_iff_lt]
    rw [if_pos hpos]
  · intro hempty
    constructor
    · show round2 (calcTests order.tests).totalCommission = 0
      rw [calcTests_eq, hempty]
      simpa using round2_of_isCent isCent_zero
    · show round2 _ = 0
      rw [calcTests_eq, hempty]
      simpa using round2_of_isCent isCent_zero

/-- Witness for C4 on `wDb` / `wOrder` (rates 10 and 20). -/
theorem claim_C4_witness :
    ∃ c : CommissionRec,
      (CommissionService.calculateCommission wDb 7 1 1).2.success = true ∧
      (CommissionService.calculateCommission wDb 7 1 1).1.commissions = wDb.commissions ++ [c] ∧
      c.amount = ((qualPairs wOrder.tests).map fun pr =>
        CommissionHelper.calculateCommission pr.1 pr.2).sum ∧
      (0 < (qualPairs wOrder.tests).length →
        c.percentage = round2 (((qualPairs wOrder.tests).map Prod.snd).sum /
          (qualPairs wOrder.tests).length)) ∧
      (qualPairs wOrder.tests = [] → c.amount = 0 ∧ c.percentage = 0) :=
  claim_C4_aggregation wDb 7 1 1 wOrder drRoy (by rfl) (by rfl) (by rfl)

/-- C3: `calculateCommission` fails 404 when the order is missing, 400 when it
has no referring doctor or a Commission already exists (so a second call on
the same valid order is rejected rather than returning the existing record),
and otherwise persists a new Commission with status PENDING. -/
theorem claim_C3_calculate_protocol :
    (∀ (db : DB) (orderId now newId : ℕ),
       db.orders.find? (fun o => o.oid == orderId) = none →
       CommissionService.calculateCommission db orderId now newId =
         (db, ResponseHelper.error "Order not found" 404)) ∧
    (∀ (db : DB) (orderId now newId : ℕ) (order : TestOrder),
       db.orders.find? (fun o => o.oid == orderId) = some order →
       order.referringDoctor = none →
       CommissionService.calculateCommission db orderId now newId =
         (db, ResponseHelper.error "No referring doctor found for commission calculation" 400)) ∧
    (∀ (db : DB) (orderId now newId : ℕ) (order : TestOrder) (doctor : Doctor)
       (existing : CommissionRec),
       db.orders.find? (fun o => o.oid == orderId) = some order →
       order.referringDoctor = some doctor →
       db.commissions.find? (fun c => c.orderId == order.oid) = some existing →
       CommissionService.calculateCommission db orderId now newId =
         (db, ResponseHelper.error "Commission already calculated for this order" 400)) ∧
    (∀ (db : DB) (orderId now newId : ℕ) (order : TestOrder) (doctor : Doctor),
       db.orders.find? (fun o => o.oid == orderId) = some order →
       order.referringDoctor = some doctor →
       db.commissions.find? (fun c => c.orderId == order.oid) = none →
       (CommissionService.calculateCommission db orderId now newId).1.commissions =
         db.commissions ++ [newCommission order doctor now newId] ∧
       (CommissionService.calculateCommission db orderId now newId).2.success = true ∧
       (newCommission order doctor now newId).paymentStatus = PaymentStatus.PENDING ∧
       (newCommission order doctor now newId).orderId = order.oid) ∧
    (∀ (db : DB) (orderId now newId now2 newId2 : ℕ) (order : TestOrder) (doctor : Doctor),
       db.orders.find? (fun o => o.oid == orderId) = some order →
       order.referringDoctor = some doctor →
       db.commissions.find? (fun c => c.orderId == order.oid) = none →
       (CommissionService.calculateCommission
          (CommissionService.calculateCommission db orderId now newId).1
          orderId now2 newId2).2 =
         ResponseHelper.error "Commission already calculated for this order" 400) := by
  refine ⟨?_, ?_, ?_, ?_, ?_⟩
  · intro db orderId now newId h
    exact calculateCommission_notFound now newId h
  · intro db orderId now newId order h hd
    exact calculateCommission_noDoctor now newId h hd
  · intro db orderId now newId order doctor existing h hd he
    exact calculateCommission_already now newId h hd he
  · intro db orderId now newId order doctor h hd hn
    rw [calculateCommission_insert now newId h hd hn]
    exact ⟨rfl, rfl, rfl, rfl⟩
  · intro db orderId now newId now2 newId2 order doctor h hd hn
    rw [calculateCommission_insert now newId h hd hn]
    have h2 : ({ db with
        commissions := db.commissions ++ [newCommission order doctor now newId] } : DB).orders.find?
        (fun o => o.oid == orderId) = some order := h
    have hfind : ({ db with
        commissions := db.commissions ++ [newCommission order doctor now newId] } : DB).commissions.find?
        (fun c => c.orderId == order.oid) = some (newCommission order doctor now newId) := by
      show (db.commissions ++ [newCommission order doctor now newId]).find?
        (fun c => c.orderId == order.oid) = _
      rw [find?_append_of_none _ _ _ hn]
      simp [newCommission]
    rw [calculateCommission_already now2 newId2 h2 hd hfind]

/-- Witness for C3: all five branches exercised on concrete stores. -/
theorem claim_C3_witness :
    CommissionService.calculateCommission emptyDb 7 1 1 =
      (emptyDb, ResponseHelper.error "Order not found" 404) ∧
    (CommissionService.calculateCommission wDb 7 1 1).1.commissions =
      wDb.commissions ++ [newCommission wOrder drRoy 1 1] ∧
    (CommissionService.calculateCommission
       (CommissionService.calculateCommission wDb 7 1 1).1 7 2 2).2 =
      ResponseHelper.error "Commission already calculated for this order" 400 :=
  ⟨claim_C3_calculate_protocol.1 emptyDb 7 1 1 (by rfl),
   ((claim_C3_calculate_protocol.2.2.2.1 wDb 7 1 1 wOrder drRoy (by rfl) (by rfl) (by rfl)).1),
   claim_C3_calculate_protocol.2.2.2.2 wDb 7 1 1 2 2 wOrder drRoy (by rfl) (by rfl) (by rfl)⟩

/-- C2 counterexample: the storage layer declares no unique index — the schema
admits two distinct Commission documents referencing the same order, so
uniqueness is not enforced by a storage-layer constraint. -/
theorem claim_C2_counterexample :
    commissionStorageAdmits [dupCommissionA, dupCommissionB] ∧
    dupCommissionA.orderId = dupCommissionB.orderId ∧
    dupCommissionA ≠ dupCommissionB ∧
    (∀ idx ∈ commissionIndexes, idx.unique = false) := by
  refine ⟨by decide, by decide, by decide, by decide⟩

/-- C2 (amended): at-most-one Commission per order is maintained only by the
application-level pre-check of `calculateCommission` (sequentially it
preserves the invariant); the `orderId` index of the schema is non-unique, so
no storage-layer constraint backs it. -/
theorem claim_C2_amended :
    (∀ idx ∈ commissionIndexes, idx.unique = false) ∧
    (∀ (db : DB) (orderId now newId : ℕ),
       List.Pairwise (fun a b => a.orderId ≠ b.orderId) db.commissions →
       List.Pairwise (fun a b => a.orderId ≠ b.orderId)
         (CommissionService.calculateCommission db orderId now newId).1.commissions) := by
  constructor
  · decide
  · intro db orderId now newId hp
    cases h : db.orders.find? (fun o => o.oid == orderId) with
    | none => rw [calculateCommission_notFound now newId h]; exact hp
    | some order =>
      cases hd : order.referringDoctor with
      | none => rw [calculateCommission_noDoctor now newId h hd]; exact hp
      | some doctor =>
        cases hn : db.commissions.find? (fun c => c.orderId == order.oid) with
        | some existing =>
            rw [calculateCommission_already now newId h hd hn]
            exact hp
        | none =>
            rw [calculateCommission_insert now newId h hd hn]
            show List.Pairwise _ (db.commissions ++ [newCommission order doctor now newId])
            rw [List.pairwise_append]
            refine ⟨hp, by simp, ?_⟩
            intro a ha b hb
            have hne := List.find?_eq_none.mp hn a ha
            simp only [List.mem_singleton] at hb
            subst hb
            show a.orderId ≠ (newCommission order doctor now newId).orderId
            have : a.orderId ≠ order.oid := by simpa using hne
            simpa [newCommission] using this

/-- Witness for C2 (amended): the invariant is preserved through an actual
insert on `wDb`. -/
theorem claim_C2_amended_witness :
    List.Pairwise (fun a b => a.orderId ≠ b.orderId)
      (CommissionService.calculateCommission wDb 7 1 1).1.commissions :=
  claim_C2_amended.2 wDb 7 1 1 (by simp [wDb])

section PayReductionLemmas

lemma payCommission_notFound {db : DB} {i : ℕ} (now : ℕ) (emailOk : Bool)
    (h : db.commissions.find? (fun c => c.cid == i) = none) :
    CommissionService.payCommission db i now emailOk =
      (db, ResponseHelper.error "Commission not found" 404) := by
  simp [CommissionService.payCommission, h]

lemma payCommission_already {db : DB} {i : ℕ} (now : ℕ) (emailOk : Bool)
    {comm : CommissionRec}
    (h : db.commissions.find? (fun c => c.cid == i) = some comm)
    (hp : comm.paymentStatus = PaymentStatus.PAID) :
    CommissionService.payCommission db i now emailOk =
      (db, ResponseHelper.error "Commission already paid" 400) := by
  simp [CommissionService.payCommission, h, hp]

lemma payCommission_transition_state {db : DB} {i : ℕ} (now : ℕ) (emailOk : Bool)
    {comm : CommissionRec}
    (h : db.commissions.find? (fun c => c.cid == i) = some comm)
    (hp : comm.paymentStatus ≠ PaymentStatus.PAID) :
    (CommissionService.payCommission db i now emailOk).1.commissions =
      db.commissions.map
        (fun x => if x.cid == i then CommissionService.paidVersion x now else x) := by
  cases hd : db.doctors.find? (fun d => d.did == comm.doctorId) with
  | none => simp [CommissionService.payCommission, h, hp, hd]
  | some doctor => simp [CommissionService.payCommission, h, hp, hd]

lemma payCommission_transition_resp {db : DB} {i : ℕ} (now : ℕ) (emailOk : Bool)
    {comm : CommissionRec} {doctor : Doctor}
    (h : db.commissions.find? (fun c => c.cid == i) = some comm)
    (hp : comm.paymentStatus ≠ PaymentStatus.PAID)
    (hd : db.doctors.find? (fun d => d.did == comm.doctorId) = some doctor) :
    (CommissionService.payCommission db i now emailOk).2 =
      ResponseHelper.success (CommissionService.paidVersion comm now)
        "Commission payment processed successfully" := by
  simp [CommissionService.payCommission, h, hp, hd]

lemma payCommission_state (db : DB) (i now : ℕ) (emailOk : Bool) :
    (CommissionService.payCommission db i now emailOk).1.commissions = db.commissions ∨
    (CommissionService.payCommission db i now emailOk).1.commissions =
      db.commissions.map
        (fun x => if x.cid == i then CommissionService.paidVersion x now else x) := by
  cases h : db.commissions.find? (fun c => c.cid == i) with
  | none => exact Or.inl (by rw [payCommission_notFound now emailOk h])
  | some comm =>
      by_cases hp : comm.paymentStatus = PaymentStatus.PAID
      · exact Or.inl (by rw [payCommission_already now emailOk h hp])
      · exact Or.inr (payCommission_transition_state now emailOk h hp)

lemma bulkPay_state (db : DB) (ids : List ℕ) (now : ℕ) (okf : ℕ → Bool) :
    (CommissionService.bulkPayCommissions db ids now okf).1.commissions = db.commissions ∨
    (CommissionService.bulkPayCommissions db ids now okf).1.commissions =
      (CommissionService.bulkLoop db.doctors db.commissions
        (db.commissions.filter (CommissionService.pendingSel ids)) now okf []).1 := by
  unfold CommissionService.bulkPayCommissions
  by_cases he : (db.commissions.filter (CommissionService.pendingSel ids)).isEmpty
  · exact Or.inl (by simp [he])
  · right
    simp only [he, Bool.false_eq_true, if_false]
    cases hl : CommissionService.bulkLoop db.doctors db.commissions
        (db.commissions.filter (CommissionService.pendingSel ids)) now okf [] with
    | mk comms1 res =>
        cases res with
        | none => simp
        | some results => simp

lemma calculateCommission_state (db : DB) (orderId now newId : ℕ) :
    (CommissionService.calculateCommission db orderId now newId).1.commissions =
      db.commissions ∨
    ∃ c : CommissionRec,
      (CommissionService.calculateCommission db orderId now newId).1.commissions =
        db.commissions ++ [c] := by
  cases h : db.orders.find? (fun o => o.oid == orderId) with
  | none => exact Or.inl (by rw [calculateCommission_notFound now newId h])
  | some order =>
    cases hd : order.referringDoctor with
    | none => exact Or.inl (by rw [calculateCommission_noDoctor now newId h hd])
    | some doctor =>
      cases hn : db.commissions.find? (fun c => c.orderId == order.oid) with
      | some existing => exact Or.inl (by rw [calculateCommission_already now newId h hd hn])
      | none =>
          exact Or.inr ⟨newCommission order doctor now newId,
            by rw [calculateCommission_insert now newId h hd hn]⟩

end PayReductionLemmas

/-- C6: `payCommission` fails 404 when the commission is missing, 400 when it
is already PAID, otherwise transitions the record to PAID with payment date
set; and no commission-mutating operation moves a PAID record back to
PENDING. -/
theorem claim_C6_pay_protocol :
    (∀ (db : DB) (i now : ℕ) (emailOk : Bool),
       db.commissions.find? (fun c => c.cid == i) = none →
       CommissionService.payCommission db i now emailOk =
         (db, ResponseHelper.error "Commission not found" 404)) ∧
    (∀ (db : DB) (i now : ℕ) (emailOk : Bool) (comm : CommissionRec),
       db.commissions.find? (fun c => c.cid == i) = some comm →
       comm.paymentStatus = PaymentStatus.PAID →
       CommissionService.payCommission db i now emailOk =
         (db, ResponseHelper.error "Commission already paid" 400)) ∧
    (∀ (db : DB) (i now : ℕ) (emailOk : Bool) (comm : CommissionRec),
       db.commissions.find? (fun c => c.cid == i) = some comm →
       comm.paymentStatus ≠ PaymentStatus.PAID →
       (CommissionService.payCommission db i now emailOk).1.commissions =
         db.commissions.map
           (fun x => if x.cid == i then CommissionService.paidVersion x now else x) ∧
       (CommissionService.paidVersion comm now).paymentStatus = PaymentStatus.PAID ∧
       (CommissionService.paidVersion comm now).paymentDate = some now ∧
       (∀ doctor : Doctor,
          db.doctors.find? (fun d => d.did == comm.doctorId) = some doctor →
          (CommissionService.payCommission db i now emailOk).2 =
            ResponseHelper.success (CommissionService.paidVersion comm now)
              "Commission payment processed successfully")) ∧
    (∀ (db : DB) (i now : ℕ) (emailOk : Bool),
       PaidStaysPaid db.commissions
         (CommissionService.payCommission db i now emailOk).1.commissions) ∧
    (∀ (db : DB) (orderId now newId : ℕ),
       PaidStaysPaid db.commissions
         (CommissionService.calculateCommission db orderId now newId).1.commissions) ∧
    (∀ (db : DB) (ids : List ℕ) (now : ℕ) (okf : ℕ → Bool),
       PaidStaysPaid db.commissions
         (CommissionService.bulkPayCommissions db ids now okf).1.commissions) := by
  refine ⟨?_, ?_, ?_, ?_, ?_, ?_⟩
  · intro db i now emailOk h
    exact payCommission_notFound now emailOk h
  · intro db i now emailOk comm h hp
    exact payCommission_already now emailOk h hp
  · intro db i now emailOk comm h hp
    exact ⟨payCommission_transition_state now emailOk h hp, rfl, rfl,
      fun doctor hd => payCommission_transition_resp now emailOk h hp hd⟩
  · intro db i now emailOk
    rcases payCommission_state db i now emailOk with h | h
    · rw [h]; exact paidStays_refl _
    · rw [h]; exact paidStays_condMap _ _ _
  · intro db orderId now newId
    rcases calculateCommission_state db orderId now newId with h | ⟨c, h⟩
    · rw [h]; exact paidStays_refl _
    · rw [h]
      intro x hx hp
      exact ⟨x, List.mem_append_left _ hx, rfl, hp⟩
  · intro db ids now okf
    rcases bulkPay_state db ids now okf with h | h
    · rw [h]; exact paidStays_refl _
    · rw [h]; exact bulkLoop_paidStays db.doctors now okf _ _ _

/-- Witness for C6: the three reduction branches on `payDb`. -/
theorem claim_C6_witness :
    CommissionService.payCommission payDb 99 4 true =
      (payDb, ResponseHelper.error "Commission not found" 404) ∧
    CommissionService.payCommission payDb 2 4 true =
      (payDb, ResponseHelper.error "Commission already paid" 400) ∧
    (CommissionService.payCommission payDb 1 4 true).1.commissions =
      payDb.commissions.map
        (fun x => if x.cid == 1 then CommissionService.paidVersion x 4 else x) :=
  ⟨claim_C6_pay_protocol.1 payDb 99 4 true (by rfl),
   claim_C6_pay_protocol.2.1 payDb 2 4 true paidComm (by rfl) (by rfl),
   (claim_C6_pay_protocol.2.2.1 payDb 1 4 true pendComm (by rfl) (by decide)).1⟩

/-- C8: the e-mail notification outcome never alters the result or the state
of `payCommission` / `bulkPayCommissions`, and in the transition case every
record matching the paid `_id` ends PAID regardless of the e-mail outcome. -/
theorem claim_C8_email_fire_and_forget :
    (∀ (db : DB) (i now : ℕ) (ok1 ok2 : Bool),
       CommissionService.payCommission db i now ok1 =
         CommissionService.payCommission db i now ok2) ∧
    (∀ (db : DB) (ids : List ℕ) (now : ℕ) (ok1 ok2 : ℕ → Bool),
       CommissionService.bulkPayCommissions db ids now ok1 =
         CommissionService.bulkPayCommissions db ids now ok2) ∧
    (∀ (db : DB) (i now : ℕ) (ok : Bool) (comm : CommissionRec),
       db.commissions.find? (fun c => c.cid == i) = some comm →
       comm.paymentStatus ≠ PaymentStatus.PAID →
       ∀ x ∈ (CommissionService.payCommission db i now ok).1.commissions,
         x.cid = i → x.paymentStatus = PaymentStatus.PAID) := by
  refine ⟨?_, ?_, ?_⟩
  · intro db i now ok1 ok2
    rfl
  · intro db ids now ok1 ok2
    unfold CommissionService.bulkPayCommissions
    simp only [bulkLoop_email_irrel db.doctors now ok1 ok2]
  · intro db i now ok comm h hp x hx hcid
    rw [payCommission_transition_state now ok h hp] at hx
    obtain ⟨y, _, rfl⟩ := List.mem_map.mp hx
    by_cases hy : y.cid == i
    · simp [hy, paidVersion_status]
    · rw [if_neg (by simpa using hy)] at hcid ⊢
      exact absurd hcid (by simpa using hy)

/-- Witness for C8's conditional part at `payDb`. -/
theorem claim_C8_witness :
    ∀ x ∈ (CommissionService.payCommission payDb 1 4 false).1.commissions,
      x.cid = 1 → x.paymentStatus = PaymentStatus.PAID :=
  claim_C8_email_fire_and_forget.2.2 payDb 1 4 false pendComm (by rfl) (by decide)

/-- C7: `bulkPayCommissions` transitions to PAID exactly the given ids that
exist with status PENDING (silently skipping already-PAID and unknown ids);
the result rows and `totalAmount` cover only that subset; and it fails 404
exactly when the subset is empty. -/
theorem claim_C7_bulk_pay :
    (∀ (db : DB) (ids : List ℕ) (now : ℕ) (okf : ℕ → Bool),
       db.commissions.filter (CommissionService.pendingSel ids) = [] →
       CommissionService.bulkPayCommissions db ids now okf =
         (db, ResponseHelper.error "No pending commissions found" 404)) ∧
    (∀ (db : DB) (ids : List ℕ) (now : ℕ) (okf : ℕ → Bool),
       (db.commissions.map CommissionRec.cid).Nodup →
       db.commissions.filter (CommissionService.pendingSel ids) ≠ [] →
       (∀ c ∈ db.commissions.filter (CommissionService.pendingSel ids),
          (db.doctors.find? (fun d => d.did == c.doctorId)).isSome = true) →
       CommissionService.bulkPayCommissions db ids now okf =
         ({ db with commissions := db.commissions.map fun x =>
              if CommissionService.pendingSel ids x then CommissionService.paidVersion x now
              else x },
          ResponseHelper.success
            ⟨(db.commissions.filter (CommissionService.pendingSel ids)).length,
             ((db.commissions.filter (CommissionService.pendingSel ids)).map
               CommissionRec.amount).sum,
             (db.commissions.filter (CommissionService.pendingSel ids)).map
               (CommissionService.mkPayResult db.doctors)⟩
            "commission payments processed successfully")) := by
  constructor
  · intro db ids now okf h
    simp [CommissionService.bulkPayCommissions, h]
  · intro db ids now okf hnd hne hdocs
    unfold CommissionService.bulkPayCommissions
    have hempty : (db.commissions.filter (CommissionService.pendingSel ids)).isEmpty = false := by
      simpa [List.isEmpty_iff] using hne
    simp only [hempty, Bool.false_eq_true, if_false]
    rw [bulkLoop_ok db.doctors now okf _ hdocs db.commissions []]
    simp only [List.nil_append]
    rw [foldl_update_eq_map]
    have hmap : (db.commissions.map fun x =>
        if x.cid ∈ (db.commissions.filter (CommissionService.pendingSel ids)).map
            CommissionRec.cid then CommissionService.paidVersion x now else x) =
      db.commissions.map fun x =>
        if CommissionService.pendingSel ids x then CommissionService.paidVersion x now
        else x := by
      refine List.map_congr_left ?_
      intro x hx
      by_cases hp : CommissionService.pendingSel ids x
      · rw [if_pos ((mem_filter_cids _ hnd hx).mpr hp), if_pos hp]
      · rw [if_neg (fun hmem => hp ((mem_filter_cids _ hnd hx).mp hmem)),
            if_neg (by simpa using hp)]
    rw [hmap]
    have hamount : ((db.commissions.filter (CommissionService.pendingSel ids)).map
        (CommissionService.mkPayResult db.doctors)).map
          CommissionService.PayResult.amount =
      (db.commissions.filter (CommissionService.pendingSel ids)).map
        CommissionRec.amount := by
      rw [List.map_map]
      rfl
    simp only [hamount, List.length_map]

/-- Witness for C7 on `payDb` with ids `[1, 2, 3]`: B (already PAID) silently
excluded, A and C transition and make up the results and total. -/
theorem claim_C7_witness :
    CommissionService.bulkPayCommissions payDb [1, 2, 3] 4 (fun _ => false) =
      ({ payDb with commissions := payDb.commissions.map fun x =>
           if CommissionService.pendingSel [1, 2, 3] x then CommissionService.paidVersion x 4
           else x },
       ResponseHelper.success
         ⟨(payDb.commissions.filter (CommissionService.pendingSel [1, 2, 3])).length,
          ((payDb.commissions.filter (CommissionService.pendingSel [1, 2, 3])).map
            CommissionRec.amount).sum,
          (payDb.commissions.filter (CommissionService.pendingSel [1, 2, 3])).map
            (CommissionService.mkPayResult payDb.doctors)⟩
         "commission payments processed successfully") :=
  claim_C7_bulk_pay.2 payDb [1, 2, 3] 4 (fun _ => false)
    (by decide) (by decide) (by decide)

/-- C1 counterexample: the accounts daily-collection report does not return
Forbidden for a non-administrator requesting another branch — the requested
`branchId` is silently ignored and the caller's own branch data is returned
(success, scope BR001, the BR001 visit included, the BR002 one not). -/
theorem claim_C1_counterexample :
    AccountsController.dailyCollectionRequest scopeDb (some opdUser) (some "BR002") 0 100 =
      AccountsController.CtrlResp.ok
        (AccountsController.DailyCollectionData.single "BR001"
          [⟨"CASH", 500, 0, 500, 1, 0, 1⟩] ⟨500, 0, 500, 1⟩) ∧
    ∀ m : String,
      AccountsController.dailyCollectionRequest scopeDb (some opdUser) (some "BR002") 0 100 ≠
        AccountsController.CtrlResp.failed 403 m := by
  have h : AccountsController.dailyCollectionRequest scopeDb (some opdUser) (some "BR002") 0 100 =
      AccountsController.CtrlResp.ok
        (AccountsController.DailyCollectionData.single "BR001"
          [⟨"CASH", 500, 0, 500, 1, 0, 1⟩] ⟨500, 0, 500, 1⟩) := by
    simp +decide [AccountsController.dailyCollectionRequest, rbac.authorize,
      dailyCollectionAllowedRoles, AccountsController.getDailyCollection,
      AccountsController.dailyCollectionBranchFilter, groupSum, addToGroups,
      AccountsController.applyConsultation, scopeDb, opdUser, visitBR1, visitBR2,
      List.filter]
  exact ⟨h, fun m hc => by rw [h] at hc; exact AccountsController.CtrlResp.noConfusion hc⟩

/-- C1 (amended): routes mounted behind `checkBranchAccess` (the OPD, lab,
inventory and employee routers) do fail with Forbidden 403 when a
non-administrator requests a foreign `branchId`; the accounts report routes do
not mount that middleware, and their handlers pin the scope to the caller's
own branch, ignoring the requested `branchId`, and return that branch's
data. -/
theorem claim_C1_amended :
    (∀ (u : UserCtx) (b rb : String),
       u.role ≠ "ADMIN" → u.branchId = some b → rb ≠ b →
       rbac.checkBranchAccess (some u) (some rb) =
         rbac.MiddlewareResult.denied 403 "Branch access denied") ∧
    ("checkBranchAccess" ∈ opdRouterMiddlewares ∧
     "checkBranchAccess" ∉ accountsDailyCollectionMiddlewares) ∧
    (∀ (u : UserCtx) (requested : Option String),
       u.role ≠ "ADMIN" →
       AccountsController.dailyCollectionBranchFilter u requested = u.branchId) := by
  refine ⟨?_, ⟨by decide, by decide⟩, ?_⟩
  · intro u b rb hrole hb hne
    have hbeq : (u.role == "ADMIN") = false := by
      simpa using hrole
    have hneq : some rb ≠ u.branchId := by
      rw [hb]
      simpa using hne
    simp [rbac.checkBranchAccess, hbeq, hneq]
  · intro u requested hrole
    simp [AccountsController.dailyCollectionBranchFilter, hrole]

/-- Witness for C1 (amended): the middleware denies `opdUser` asking for
BR002, and the accounts scope resolution pins `opdUser` to BR001. -/
theorem claim_C1_amended_witness :
    rbac.checkBranchAccess (some opdUser) (some "BR002") =
      rbac.MiddlewareResult.denied 403 "Branch access denied" ∧
    AccountsController.dailyCollectionBranchFilter opdUser (some "BR002") = some "BR001" :=
  ⟨claim_C1_amended.1 opdUser "BR001" "BR002" (by decide) rfl (by decide),
   claim_C1_amended.2.2 opdUser (some "BR002") (by decide)⟩

/-- C9 counterexample: for revenue 3, expenses 2 (net income 1) the statement
reports profit margin 33.33 — the 2-decimal `toFixed(2)` value — not the
exact quotient `netIncome / totalRevenue * 100 = 100/3`. -/
theorem claim_C9_counterexample :
    (AccountsController.financialStatementSingle marginDb none 0 100).revenueTotal = 3 ∧
    (AccountsController.financialStatementSingle marginDb none 0 100).netIncome = 1 ∧
    (AccountsController.financialStatementSingle marginDb none 0 100).profitMargin = 3333/100 ∧
    (AccountsController.financialStatementSingle marginDb none 0 100).profitMargin ≠
      (AccountsController.financialStatementSingle marginDb none 0 100).netIncome /
        (AccountsController.financialStatementSingle marginDb none 0 100).revenueTotal * 100 := by
  have h1 : (AccountsController.financialStatementSingle marginDb none 0 100).revenueTotal = 3 := by
    simp +decide [AccountsController.financialStatementSingle, marginDb, List.filter,
      groupSum, addToGroups, AccountsController.sortDescBy, AccountsController.insertDescBy]
  have h2 : (AccountsController.financialStatementSingle marginDb none 0 100).netIncome = 1 := by
    simp +decide [AccountsController.financialStatementSingle, marginDb, List.filter,
      groupSum, addToGroups, AccountsController.sortDescBy, AccountsController.insertDescBy]
    norm_num
  have h3 : (AccountsController.financialStatementSingle marginDb none 0 100).profitMargin =
      3333/100 := by
    simp +decide [AccountsController.financialStatementSingle, marginDb, List.filter,
      groupSum, addToGroups, AccountsController.sortDescBy, AccountsController.insertDescBy,
      AccountsController.toFixed2, round2, jsRound]
    norm_num [jsRound]
  refine ⟨h1, h2, h3, ?_⟩
  rw [h1, h2, h3]
  norm_num

/-- C9 (amended): when revenue is positive the reported margin is the exact
quotient rounded to 2 decimals (`toFixed(2)`); when revenue is 0 — including
zero revenue with zero expenses — the margin is reported as 0, not an error;
the branch-wise finalization behaves identically. -/
theorem claim_C9_amended :
    (∀ (db : DB) (bf : Option String) (lo hi : ℕ),
       (0 < (AccountsController.financialStatementSingle db bf lo hi).revenueTotal →
         (AccountsController.financialStatementSingle db bf lo hi).profitMargin =
           round2 ((AccountsController.financialStatementSingle db bf lo hi).netIncome /
             (AccountsController.financialStatementSingle db bf lo hi).revenueTotal * 100)) ∧
       ((AccountsController.financialStatementSingle db bf lo hi).revenueTotal = 0 →
         (AccountsController.financialStatementSingle db bf lo hi).profitMargin = 0)) ∧
    (∀ rev exps comm : ℚ,
       (0 < rev →
         (AccountsController.branchFinalize rev exps comm).2 =
           round2 ((rev - exps - comm) / rev * 100)) ∧
       (rev = 0 → (AccountsController.branchFinalize rev exps comm).2 = 0)) := by
  constructor
  · intro db bf lo hi
    constructor
    · intro h
      simp only [AccountsController.financialStatementSingle] at h ⊢
      rw [if_pos h]
      rfl
    · intro h
      simp only [AccountsController.financialStatementSingle] at h ⊢
      rw [if_neg (by rw [h]; exact lt_irrefl 0)]
  · intro rev exps comm
    constructor
    · intro h
      simp only [AccountsController.branchFinalize]
      rw [if_pos h]
      rfl
    · intro h
      simp only [AccountsController.branchFinalize]
      rw [if_neg (by rw [h]; exact lt_irrefl 0)]

/-- Witness for C9 (amended): the empty store has zero revenue and zero
expenses and reports margin 0; `branchFinalize` at revenue 4 matches the
rounded quotient. -/
theorem claim_C9_witness :
    (AccountsController.financialStatementSingle emptyDb none 0 0).profitMargin = 0 ∧
    (AccountsController.branchFinalize 4 1 1).2 = round2 ((4 - 1 - 1) / 4 * 100) :=
  ⟨((claim_C9_amended.1 emptyDb none 0 0).2 (by
      simp [AccountsController.financialStatementSingle, emptyDb])),
   (claim_C9_amended.2 4 1 1).1 (by norm_num)⟩

section CreationLemmas

lemma createTestOrderTotals_go :
    ∀ (pairs : List (OPDController.OrderTestRequest × Option OPDController.TestDetail))
      (acc : ℚ × ℚ),
      pairs.foldl
        (fun acc rd =>
          match rd.2 with
          | some d =>
              (acc.1 + OPDController.storedLinePrice rd.1 rd.2,
               acc.2 + CommissionHelper.calculateCommission
                 (OPDController.storedLinePrice rd.1 rd.2) d.commissionRate)
          | none => acc) acc =
      (acc.1 + ((createdPairs pairs).map Prod.fst).sum,
       acc.2 + ((createdPairs pairs).map fun pr =>
         CommissionHelper.calculateCommission pr.1 pr.2).sum) := by
  intro pairs
  induction pairs with
  | nil => intro acc; simp [createdPairs]
  | cons p rest ih =>
      intro acc
      cases hp : p.2 with
      | none => simp [createdPairs, List.filterMap_cons, hp, ih]
      | some d => simp [createdPairs, List.filterMap_cons, hp, ih, add_assoc]

lemma createTestOrderTotals_snd
    (pairs : List (OPDController.OrderTestRequest × Option OPDController.TestDetail)) :
    (OPDController.createTestOrderTotals pairs).2 =
      ((createdPairs pairs).map fun pr =>
        CommissionHelper.calculateCommission pr.1 pr.2).sum := by
  unfold OPDController.createTestOrderTotals
  rw [createTestOrderTotals_go pairs (0, 0)]
  simp

lemma createdPairs_of_present
    (lines : List (OPDController.OrderTestRequest × OPDController.TestDetail)) :
    createdPairs (lines.map fun p => (p.1, some p.2)) =
      lines.map fun p =>
        (OPDController.storedLinePrice p.1 (some p.2), p.2.commissionRate) := by
  induction lines with
  | nil => rfl
  | cons p rest ih =>
      unfold createdPairs at ih ⊢
      simp only [List.map_cons, List.filterMap_cons]
      rw [ih]

lemma qualPairs_serviceLines
    (lines : List (OPDController.OrderTestRequest × OPDController.TestDetail))
    (h : ∀ p ∈ lines, 0 ≤ p.2.commissionRate ∧ p.2.commissionRate ≤ 100) :
    qualPairs (lines.map fun p => OPDController.serviceLineOf p.1 p.2) =
      lines.map fun p =>
        (OPDController.storedLinePrice p.1 (some p.2), p.2.commissionRate) := by
  induction lines with
  | nil => rfl
  | cons p rest ih =>
      have hp := h p (by simp)
      have hrest := ih fun q hq => h q (List.mem_cons_of_mem _ hq)
      unfold qualPairs at hrest ⊢
      simp only [OPDController.serviceLineOf] at hrest
      simp only [List.map_cons, List.filterMap_cons, OPDController.serviceLineOf]
      rw [if_pos hp]
      rw [hrest]

end CreationLemmas

/-- C10: when every line's catalog rate lies in `[0, 100]`, the
`commissionAmount` computed at order creation coincides with the amount of the
Commission record that `calculateCommission` later stores for the same saved
line items (both are the sum of per-line 2-decimal-rounded commissions);
order creation applies no range filter, so a rate outside `[0, 100]` makes the
two computations diverge. -/
theorem claim_C10_creation_service_agreement :
    (∀ (lines : List (OPDController.OrderTestRequest × OPDController.TestDetail))
       (db : DB) (orderId now newId : ℕ) (order : TestOrder) (doctor : Doctor),
       (∀ p ∈ lines, 0 ≤ p.2.commissionRate ∧ p.2.commissionRate ≤ 100) →
       db.orders.find? (fun o => o.oid == orderId) = some order →
       order.referringDoctor = some doctor →
       order.tests = lines.map (fun p => OPDController.serviceLineOf p.1 p.2) →
       db.commissions.find? (fun c => c.orderId == order.oid) = none →
       (newCommission order doctor now newId).amount =
         (OPDController.createTestOrderTotals (lines.map fun p => (p.1, some p.2))).2 ∧
       (CommissionService.calculateCommission db orderId now newId).1.commissions =
         db.commissions ++ [newCommission order doctor now newId]) ∧
    ((OPDController.createTestOrderTotals [(badRateLine.1, some badRateLine.2)]).2 = 150 ∧
     round2 ((calcTests [OPDController.serviceLineOf badRateLine.1 badRateLine.2]).totalCommission) = 0 ∧
     (OPDController.createTestOrderTotals [(badRateLine.1, some badRateLine.2)]).2 ≠
       round2 ((calcTests [OPDController.serviceLineOf badRateLine.1 badRateLine.2]).totalCommission)) := by
  constructor
  · intro lines db orderId now newId order doctor hrates horder hdoc htests hnone
    constructor
    · show round2 (calcTests order.tests).totalCommission = _
      rw [round2_of_isCent (isCent_totalCommission order.tests), calcTests_eq]
      rw [htests, qualPairs_serviceLines lines hrates]
      rw [createTestOrderTotals_snd, createdPairs_of_present]
    · rw [calculateCommission_insert now newId horder hdoc hnone]
  · refine ⟨?_, ?_, ?_⟩
    · norm_num [OPDController.createTestOrderTotals, badRateLine,
        OPDController.storedLinePrice, OPDController.jsOrPrice,
        CommissionHelper.calculateCommission, round2, jsRound]
    · norm_num [calcTests, calcStep, OPDController.serviceLineOf, badRateLine,
        OPDController.storedLinePrice, OPDController.jsOrPrice, round2, jsRound]
    · have h1 : (OPDController.createTestOrderTotals [(badRateLine.1, some badRateLine.2)]).2 = 150 := by
        norm_num [OPDController.createTestOrderTotals, badRateLine,
          OPDController.storedLinePrice, OPDController.jsOrPrice,
          CommissionHelper.calculateCommission, round2, jsRound]
      have h2 : round2 ((calcTests
          [OPDController.serviceLineOf badRateLine.1 badRateLine.2]).totalCommission) = 0 := by
        norm_num [calcTests, calcStep, OPDController.serviceLineOf, badRateLine,
          OPDController.storedLinePrice, OPDController.jsOrPrice, round2, jsRound]
      rw [h1, h2]
      norm_num

/-- Witness for C10 on `w10Lines` / `w10Db`: the stored order amount and the
service commission amount agree. -/
theorem claim_C10_witness :
    (newCommission w10Order drRoy 1 1).amount =
      (OPDController.createTestOrderTotals (w10Lines.map fun p => (p.1, some p.2))).2 ∧
    (CommissionService.calculateCommission w10Db 11 1 1).1.commissions =
      w10Db.commissions ++ [newCommission w10Order drRoy 1 1] :=
  claim_C10_creation_service_agreement.1 w10Lines w10Db 11 1 1 w10Order drRoy
    (by decide) (by rfl) (by rfl) (by rfl) (by rfl)
